import Mathlib

/-!
# Verification of `empirical_lsm` (ubermodel transforms and PLUMBER run driver)

Shallow embedding of `src/ubermodel/transforms.py` and
`src/scripts/run_model.py`, with proofs of the specified properties.

Pandas dataframes are modelled as `Frame`: a list of column descriptors
(name plus numeric dtype flag), an integer time index, and rows of
optional rational cells (`none` models NaN / missing).
-/

set_option autoImplicit false

namespace EmpiricalLSM

/-- A pandas column: its label and whether its dtype is numeric
(`select_dtypes(include=[np.number])` keeps exactly the numeric ones). -/
structure Col where
  name : String
  numeric : Bool
  deriving Repr, DecidableEq

/-- A pandas `DataFrame` with a single (time) index level: column metadata,
the index values, and the rows (one cell per column; `none` is NaN). -/
structure Frame where
  cols : List Col
  index : List Int
  rows : List (List (Option Rat))
  deriving Repr, DecidableEq

/-- The projection of one row onto the numeric columns. -/
def numProj (cols : List Col) (r : List (Option Rat)) : List (Option Rat) :=
  (cols.zip r).filterMap (fun cv => if cv.1.numeric then some cv.2 else none)

/-- The numeric columns renamed with the `_lag` suffix. -/
def lagCols (cols : List Col) : List Col :=
  (cols.filter (·.numeric)).map (fun c => { c with name := c.name ++ "_lag" })

namespace Frame

/-- `df.select_dtypes(include=[np.number])`: keep only numeric columns. -/
def selectNumeric (df : Frame) : Frame :=
  { cols := df.cols.filter (·.numeric)
    index := df.index
    rows := df.rows.map (numProj df.cols) }

/-- `df.shift(periods, freq)`: with a `freq`, pandas leaves the data alone and
shifts the index forward by `periods * freq`. -/
def shift (df : Frame) (periods : Nat) (freq : Int) : Frame :=
  { df with index := df.index.map (· + (periods : Int) * freq) }

/-- `shifted.columns = [c + '_lag' for c in shifted.columns]`. -/
def renameLag (df : Frame) : Frame :=
  { df with cols := df.cols.map (fun c => { c with name := c.name ++ "_lag" }) }

/-- One left row's contribution to a left merge: one output row per right
row with an equal index value (pairing the left cells with the right
cells); a left row with no match is kept once, padded with NaN in the
right columns. -/
def mergeStep (r : Frame) (tr : Int × List (Option Rat)) :
    List (Int × List (Option Rat)) :=
  let ms := (r.index.zip r.rows).filter (fun q => decide (q.1 = tr.1))
  if ms.isEmpty then [(tr.1, tr.2 ++ r.cols.map (fun _ => (none : Option Rat)))]
  else ms.map (fun q => (tr.1, tr.2 ++ q.2))

/-- `pd.merge(l, r, how='left', left_index=True, right_index=True)`:
the left rows in order, each replaced by its merge contribution. -/
def mergeLeft (l r : Frame) : Frame :=
  let out := (l.index.zip l.rows).flatMap (mergeStep r)
  { cols := l.cols ++ r.cols
    index := out.map (·.1)
    rows := out.map (·.2) }

/-- Mean of one pandas column: NaNs are skipped; an all-NaN column has
mean NaN (`none`). -/
def colMean (vals : List (Option Rat)) : Option Rat :=
  let xs := vals.filterMap id
  if xs.isEmpty then none else some (xs.sum / (xs.length : Rat))

/-- The cells of column `j` of `df`, in row order. -/
def colVals (df : Frame) (j : Nat) : List (Option Rat) :=
  df.rows.map (fun r => (r.get? j).getD none)

/-- `df.mean()`: per-column mean of the numeric columns (pandas silently
drops non-numeric columns and skips NaNs). -/
def mean (df : Frame) : List (String × Option Rat) :=
  let nf := df.selectNumeric
  nf.cols.enum.map (fun jc => (jc.2.name, colMean (nf.colVals jc.1)))

/-- `'site' in df.columns`. -/
def hasCol (df : Frame) (name : String) : Bool :=
  df.cols.any (fun c => c.name = name)

/-- `df.pop(name)`: the popped column's values, and the frame with that
column removed in place. -/
def popCol (df : Frame) (name : String) : List (Option Rat) × Frame :=
  let j := df.cols.findIdx (fun c => c.name = name)
  (df.colVals j,
   { cols := df.cols.eraseIdx j
     index := df.index
     rows := df.rows.map (fun r => r.eraseIdx j) })

end Frame

/-- `lag_dataframe(df, periods, freq)` from `transforms.py`: shift the
numeric columns, rename them with a `_lag` suffix, and left-join the shifted
frame back onto the original on the index. -/
def lag_dataframe (df : Frame) (periods : Nat) (freq : Int) : Frame :=
  let shifted := (df.selectNumeric.shift periods freq).renameLag
  Frame.mergeLeft df shifted

/-- Where the `site` grouping key lives in the transform input. -/
inductive SiteLoc where
  | inIndex
  | inCols
  deriving Repr, DecidableEq

/-- The input of `LagTransform.transform`: a site-keyed table, already in
grouped view (`groupby('site')` order): the location of the `site` key, if
any, and the per-site sub-frames. -/
structure GroupedFrame where
  siteLoc : Option SiteLoc
  groups : List (String × Frame)
  deriving Repr

/-- Errors `LagTransform.transform` can raise: sklearn's
`NotFittedError` from `check_is_fitted`, and the `UnboundLocalError` on
`return X_lag` when neither branch assigned `X_lag`. -/
inductive TransformError where
  | notFitted
  | unboundLocal
  deriving Repr, DecidableEq

/-- `LagTransform` state: constructor parameters plus the attributes set by
`fit` (absent, hence `none`, until `fit` runs). -/
structure LagTransform where
  _periods : Nat
  _freq : Int
  n_input_features_ : Option Nat := none
  n_output_features_ : Option Nat := none
  X_mean : Option (List (String × Option Rat)) := none
  deriving Repr

/-- `LagTransform(periods, freq)`: the constructor sets only the lag
parameters; no fitted attributes exist yet. -/
def LagTransform.init (periods : Nat) (freq : Int) : LagTransform :=
  { _periods := periods, _freq := freq }

/-- `check_is_fitted(self, ['n_input_features_', 'n_output_features_'])`:
passes iff both attributes have been set. -/
def check_is_fitted (t : LagTransform) : Bool :=
  t.n_input_features_.isSome && t.n_output_features_.isSome

/-- `LagTransform.fit(X)`: record the numeric-column count, twice it as the
output-feature count, and the per-column mean; return `self`. -/
def LagTransform.fit (t : LagTransform) (X : Frame) : LagTransform :=
  let n_features := X.selectNumeric.cols.length
  { t with
    n_input_features_ := some n_features
    n_output_features_ := some (2 * n_features)
    X_mean := some X.mean }

/-- `LagTransform.transform(X)`: check fitted, then lag each `site` group
(whether `site` is an index level or a column); with no `site` key neither
branch runs and `return X_lag` raises `UnboundLocalError`. -/
def LagTransform.transform (t : LagTransform) (X : GroupedFrame) :
    Except TransformError GroupedFrame :=
  if check_is_fitted t then
    match X.siteLoc with
    | some _ =>
        .ok { X with
              groups := X.groups.map (fun g => (g.1, lag_dataframe g.2 t._periods t._freq)) }
    | none => .error .unboundLocal
  else
    .error .notFitted

/-- `PandasCleaner` state: the constructor flag plus the metadata attributes
`fit` stores. An outer `none` means the attribute has not been set; for the
site attributes the inner `Option` is Python's `None` (no `site` column). -/
structure PandasCleaner where
  _remove_NA : Bool
  X_sites_ : Option (Option (List (Option Rat))) := none
  X_columns_ : Option (List Col) := none
  X_index_ : Option (List Int) := none
  X_col_types_ : Option (List (String × Bool)) := none
  y_sites_ : Option (Option (List (Option Rat))) := none
  y_columns_ : Option (List Col) := none
  y_index_ : Option (List Int) := none
  y_col_types_ : Option (List (String × Bool)) := none
  deriving Repr

/-- `PandasCleaner(remove_NA)`. -/
def PandasCleaner.init (remove_NA : Bool) : PandasCleaner :=
  { _remove_NA := remove_NA }

/-- What a call to `PandasCleaner.fit` leaves behind: the updated `self`,
the caller's `X` and `y` (mutated in place by `pop`), and the Python return
value of the method, which has no `return` statement and so is `None`. -/
structure CleanerFitResult where
  self : PandasCleaner
  X : Frame
  y : Option Frame
  ret : Option PandasCleaner
  deriving Repr

/-- `PandasCleaner.fit(X, y=None)`: pop the `site` column out of `X` (and
`y`) if present, then record column list, index and per-column dtypes. -/
def PandasCleaner.fit (c : PandasCleaner) (X : Frame) (y : Option Frame) :
    CleanerFitResult :=
  let px := if X.hasCol "site" then
      (some (X.popCol "site").1, (X.popCol "site").2)
    else (none, X)
  let c1 := { c with
    X_sites_ := some px.1
    X_columns_ := some px.2.cols
    X_index_ := some px.2.index
    X_col_types_ := some (px.2.cols.map (fun col => (col.name, col.numeric))) }
  match y with
  | none => { self := c1, X := px.2, y := none, ret := none }
  | some ydf =>
      let py := if ydf.hasCol "site" then
          (some (ydf.popCol "site").1, (ydf.popCol "site").2)
        else (none, ydf)
      let c2 := { c1 with
        y_sites_ := some py.1
        y_columns_ := some py.2.cols
        y_index_ := some py.2.index
        y_col_types_ := some (py.2.cols.map (fun col => (col.name, col.numeric))) }
      { self := c2, X := px.2, y := some py.2, ret := none }

/-! ## `src/scripts/run_model.py` -/

/-- A row of one site's dataset, as converted to a dataframe row: one
optional value per variable (`none` is a gap / failed QC value). -/
abbrev DRow := List (Option Rat)

/-- A complete row: no null in any column (`(~row.isnull()).all()`). -/
def completeRow (r : DRow) : Bool :=
  r.all (fun v => v.isSome)

/-- Modelled from the spec: `xray_list_to_df` (from the external
`pals_utils.data`, not in this repository) with `qc=True` concatenates the
given site datasets, dropping every row with any null (quality control). -/
def xray_list_to_df (dss : List (List DRow)) : List DRow :=
  dss.flatMap (fun ds => ds.filter completeRow)

/-- The datasets passed to `xray_list_to_df` by `PLUMBER_fit_predict`:
every site's data except the target site
(`[ds for s, ds in data.items() if s != site]`). -/
def train_sets (data : List (String × List DRow)) (site : String) :
    List (List DRow) :=
  (data.filter (fun p => p.1 ≠ site)).map Prod.snd

/-- The training table (met or flux) built by `PLUMBER_fit_predict`:
QC-filtered concatenation of all non-target sites. -/
def build_train (data : List (String × List DRow)) (site : String) : List DRow :=
  xray_list_to_df (train_sets data site)

/-- The rows of the target site's own dataset inside `data`. -/
def target_rows (data : List (String × List DRow)) (site : String) : List DRow :=
  (data.filter (fun p => p.1 = site)).flatMap Prod.snd

/-- An sklearn-style estimator, abstracted as the composite of
`model.fit(X, y)` followed by `model.predict(met_test)`: the prediction is a
function of the training inputs, training targets and test inputs. -/
abbrev Model := List DRow → List (Option Rat) → List DRow → List Rat

/-- The flux training table in column-major view: one named series per flux
variable (so `flux_train[v]` is a lookup by name). -/
abbrev FluxTable := List (String × List (Option Rat))

/-- `flux_train[v]`: the series of the named flux variable. -/
def fluxCol (flux_train : FluxTable) (v : String) : List (Option Rat) :=
  ((flux_train.find? (fun p => p.1 = v)).map Prod.snd).getD []

/-- The QC mask for one row of
`pd.concat([met_train, flux_train_v], axis=1)`: true iff no entry of the
joined row is null. -/
def qcOK (tr : DRow × Option Rat) : Bool :=
  completeRow tr.1 && tr.2.isSome

/-- The QC-passing rows of the joined training table for variable `v`:
met rows paired with the aligned `flux_train[v]` value, rows with any null
dropped (`qc_index`). -/
def qcRows (met_train : List DRow) (flux_train : FluxTable) (v : String) :
    List (DRow × Option Rat) :=
  (met_train.zip (fluxCol flux_train v)).filter qcOK

/-- One iteration of the `for v in flux_vars` loop of
`PLUMBER_fit_predict`: skip `v` when no joined row passes QC (the
`continue` branch), otherwise fit on the QC-filtered rows, predict on
`met_test`, and record the prediction in `sim_data_dict`; also log that
`v` was fitted. -/
def loop_step (model : Model) (met_train : List DRow) (flux_train : FluxTable)
    (met_test : List DRow) (acc : List (String × List Rat) × List String)
    (v : String) : List (String × List Rat) × List String :=
  let qc := qcRows met_train flux_train v
  if 0 < qc.length then
    (acc.1 ++ [(v, model (qc.map Prod.fst) (qc.map Prod.snd) met_test)],
     acc.2 ++ [v])
  else
    acc

/-- The whole `for v in flux_vars` loop: fold the per-variable step over
the flux variables, starting from an empty `sim_data_dict` and log. -/
def fit_predict_loop (model : Model) (flux_vars : List String)
    (met_train : List DRow) (flux_train : FluxTable) (met_test : List DRow) :
    List (String × List Rat) × List String :=
  flux_vars.foldl (loop_step model met_train flux_train met_test) ([], [])

/-- The geo metadata of an xray dataset (opaque to the claims). -/
structure OldDS where
  coords : List Int
  deriving Repr, DecidableEq

/-- The simulation output dataset: the per-variable predicted vectors plus
metadata copied from the old dataset (`sim_dict_to_xray`). -/
structure SimData where
  data : List (String × List Rat)
  coords : List Int
  deriving Repr, DecidableEq

/-- `sim_dict_to_xray(sim_dict, old_ds)` from `run_model.py`: wrap the
simulated vectors into a dataset carrying `old_ds`'s geo data. -/
def sim_dict_to_xray (sim_dict : List (String × List Rat)) (old_ds : OldDS) :
    SimData :=
  { data := sim_dict, coords := old_ds.coords }

/-- A fatal process exit (`sys.exit()`). -/
inductive ExitSignal where
  | sysExit
  deriving Repr, DecidableEq

/-- `PLUMBER_fit_predict`, from the training tables on: run the
per-variable loop, exit the process if no variable was fitted, otherwise
assemble the simulation dataset. -/
def PLUMBER_fit_predict (model : Model) (flux_vars : List String)
    (met_train : List DRow) (flux_train : FluxTable) (met_test : List DRow)
    (old_ds : OldDS) : Except ExitSignal SimData :=
  let r := fit_predict_loop model flux_vars met_train flux_train met_test
  if r.1.length < 1 then
    .error .sysExit
  else
    .ok (sim_dict_to_xray r.1 old_ds)

/-- `get_sim_nc_path(name, site)`: the deterministic cache path
`source/models/{name}/sim_data/{name}_{site}.nc` (the `makedirs` side
effect touches only directories, not the returned path). -/
def get_sim_nc_path (name site : String) : String :=
  "source/models/" ++ name ++ "/sim_data/" ++ name ++ "_" ++ site ++ ".nc"

/-- The netcdf store: an association of paths to persisted sim datasets. -/
abbrev FileStore := List (String × SimData)

/-- `os.path.exists` plus `xray.open_dataset`: the persisted dataset at a
path, if any. -/
def FileStore.lookup (fs : FileStore) (path : String) : Option SimData :=
  (fs.find? (fun p => p.1 = path)).map Prod.snd

/-- `sim_data.to_netcdf(nc_path)`: persist at the path. -/
def FileStore.save (fs : FileStore) (path : String) (d : SimData) : FileStore :=
  (path, d) :: fs

/-- What `PLUMBER_fit_predict_eval` produces: the evaluation results and
plot files, the resulting store, and whether the fit/predict driver ran. -/
structure EvalOutcome (E F : Type) where
  eval_results : E
  files : F
  fs : FileStore
  driver_called : Bool

/-- `PLUMBER_fit_predict_eval(model, name, site)`: if a sim dataset is
already persisted at the path for (name, site), load it (the driver is not
invoked); otherwise run the driver and persist its output at that path;
then evaluate and plot. `driver` stands for the
`PLUMBER_fit_predict(model, name, site)` call, `evalFn` for the external
`evaluate_simulation`, `plotFn` for `diagnostic_plots`, `flux_data` for the
target site's flux dataset. -/
def PLUMBER_fit_predict_eval {E F FD : Type}
    (driver : Except ExitSignal SimData)
    (evalFn : SimData → FD → String → E)
    (plotFn : SimData → FD → String → F)
    (name site : String) (flux_data : FD) (fs : FileStore) :
    Except ExitSignal (EvalOutcome E F) :=
  let nc_path := get_sim_nc_path name site
  match fs.lookup nc_path with
  | some sim_data =>
      .ok { eval_results := evalFn sim_data flux_data name
            files := plotFn sim_data flux_data name
            fs := fs
            driver_called := false }
  | none =>
      match driver with
      | .error e => .error e
      | .ok sim_data =>
          .ok { eval_results := evalFn sim_data flux_data name
                files := plotFn sim_data flux_data name
                fs := fs.save nc_path sim_data
                driver_called := true }

/-! ## Helper lemmas -/

theorem filter_key_nil {γ : Type} (ks : List Int) (vs : List γ) (t : Int)
    (h : ∀ k ∈ ks, k ≠ t) :
    (ks.zip vs).filter (fun q => decide (q.1 = t)) = [] := by
  induction ks generalizing vs with
  | nil => simp
  | cons k ks ih =>
    cases vs with
    | nil => simp
    | cons v vs =>
      have hk : k ≠ t := h k (by simp)
      simp only [List.zip_cons_cons, List.filter_cons, decide_eq_true_eq]
      simp [hk, ih vs (fun k2 hk2 => h k2 (List.mem_cons_of_mem _ hk2))]

theorem filter_key_singleton {γ : Type} (ks : List Int) (vs : List γ) (t : Int)
    (i : Nat) (v : γ)
    (hk : ks[i]? = some t) (hv : vs[i]? = some v)
    (huniq : ∀ j k, ks[j]? = some k → k = t → j = i) :
    (ks.zip vs).filter (fun q => decide (q.1 = t)) = [(t, v)] := by
  induction ks generalizing vs i with
  | nil => simp at hk
  | cons k ks ih =>
    cases vs with
    | nil => simp at hv
    | cons v0 vs =>
      cases i with
      | zero =>
        have hk0 : k = t := by simpa using hk
        have hv0 : v0 = v := by simpa using hv
        have htail : (ks.zip vs).filter (fun q => decide (q.1 = t)) = [] := by
          refine filter_key_nil ks vs t (fun k2 hk2 hk2t => ?_)
          obtain ⟨j, hj⟩ := List.getElem?_of_mem hk2
          have := huniq (j + 1) k2 (by simpa using hj) hk2t
          omega
        simp [List.zip_cons_cons, List.filter_cons, hk0, hv0, htail]
      | succ i =>
        have hkner : k ≠ t := by
          intro hkt
          have := huniq 0 k (by simp) hkt
          omega
        have htail := ih vs i (by simpa using hk) (by simpa using hv)
          (fun j k2 hj hk2t => by
            have := huniq (j + 1) k2 (by simpa using hj) hk2t
            omega)
        simp [List.zip_cons_cons, List.filter_cons, hkner, htail]

theorem flatMap_singleton_getElem {α β : Type} (l : List α) (g : α → List β)
    (h : ∀ x ∈ l, ∃ y, g x = [y]) :
    (l.flatMap g).length = l.length ∧
    ∀ i : Nat, (l.flatMap g)[i]? = l[i]?.bind (fun x => (g x).head?) := by
  induction l with
  | nil => simp
  | cons a l ih =>
    obtain ⟨y, hy⟩ := h a (by simp)
    obtain ⟨ih1, ih2⟩ := ih (fun x hx => h x (List.mem_cons_of_mem _ hx))
    refine ⟨by simp [hy, ih1], fun i => ?_⟩
    cases i with
    | zero => simp [hy]
    | succ i => simpa [hy] using ih2 i

/-- Characterization of `lag_dataframe` on a group whose index is equally
spaced with step `f` (the spacing the code's TODO comment assumes): columns
are the originals plus the lag-renamed numeric columns, the index and row
count are unchanged (the left join adds no rows), every row keeps its
original cells followed by the numeric cells from `p` rows earlier, and the
first `p` rows carry only nulls in the lag columns. -/
theorem lag_dataframe_spec (df : Frame) (p : Nat) (f : Int) (t0 : Int)
    (hf : 0 < f)
    (hidx : df.index = (List.range df.rows.length).map
      (fun i : Nat => t0 + (i : Int) * f)) :
    (lag_dataframe df p f).cols = df.cols ++ lagCols df.cols ∧
    (lag_dataframe df p f).index = df.index ∧
    (lag_dataframe df p f).rows.length = df.rows.length ∧
    ∀ j r, df.rows[j]? = some r →
      (p ≤ j → ∃ prev, df.rows[j - p]? = some prev ∧
        (lag_dataframe df p f).rows[j]? = some (r ++ numProj df.cols prev)) ∧
      (j < p → (lag_dataframe df p f).rows[j]? =
        some (r ++ List.replicate (df.cols.filter (·.numeric)).length none)) := by
  set n := df.rows.length with hn
  set shifted := (df.selectNumeric.shift p f).renameLag with hshifted
  have hidxlen : df.index.length = n := by rw [hidx]; simp
  have hslen : shifted.index.length = n := by
    simp [hshifted, Frame.renameLag, Frame.shift, Frame.selectNumeric, hidxlen]
  have hdfget : ∀ i, i < n → df.index[i]? = some (t0 + (i : Int) * f) := by
    intro i hi
    rw [hidx]
    rw [List.getElem?_map, List.getElem?_range hi]
    rfl
  have hKget : ∀ i, i < n →
      shifted.index[i]? = some (t0 + (i : Int) * f + (p : Int) * f) := by
    intro i hi
    have : shifted.index = df.index.map (· + (p : Int) * f) := rfl
    rw [this, List.getElem?_map, hdfget i hi]
    rfl
  have hKval : ∀ j k, shifted.index[j]? = some k →
      j < n ∧ k = t0 + (j : Int) * f + (p : Int) * f := by
    intro j k hj
    have hjn : j < n := by
      obtain ⟨h, -⟩ := List.getElem?_eq_some.mp hj
      omega
    refine ⟨hjn, ?_⟩
    have := hKget j hjn
    rw [this] at hj
    exact (Option.some_injective _ hj).symm
  have hsrows : shifted.rows = df.rows.map (numProj df.cols) := rfl
  have hstep : ∀ i, i < n → ∀ tr, (df.index.zip df.rows)[i]? = some tr →
      ∃ w, Frame.mergeStep shifted tr = [w] ∧ w.1 = tr.1 ∧
        ((p ≤ i → ∃ prev, df.rows[i - p]? = some prev ∧
            w.2 = tr.2 ++ numProj df.cols prev) ∧
         (i < p → w.2 = tr.2 ++
            List.replicate (df.cols.filter (·.numeric)).length none)) := by
    intro i hi tr htr
    obtain ⟨htr1, htr2⟩ := List.getElem?_zip_eq_some.mp htr
    have htrv : tr.1 = t0 + (i : Int) * f := by
      have := hdfget i hi
      rw [this] at htr1
      exact Option.some_injective _ htr1.symm
    by_cases hp : p ≤ i
    · have hj0n : i - p < n := by omega
      obtain ⟨prev, hprev⟩ : ∃ prev, df.rows[i - p]? = some prev := by
        rw [List.getElem?_eq_getElem hj0n]
        exact ⟨_, rfl⟩
      have hkj0 : shifted.index[i - p]? = some tr.1 := by
        rw [hKget (i - p) hj0n, htrv]
        congr 1
        have hcast : ((i - p : Nat) : Int) = (i : Int) - (p : Int) := by omega
        rw [hcast]
        ring
      have hvj0 : shifted.rows[i - p]? = some (numProj df.cols prev) := by
        rw [hsrows, List.getElem?_map, hprev]
        rfl
      have hms : (shifted.index.zip shifted.rows).filter
          (fun q => decide (q.1 = tr.1)) = [(tr.1, numProj df.cols prev)] := by
        refine filter_key_singleton _ _ _ (i - p) _ hkj0 hvj0 ?_
        intro j k hj hkt
        obtain ⟨hjn, hkv⟩ := hKval j k hj
        rw [htrv] at hkt
        rw [hkv] at hkt
        have h1 : ((j : Int) + (p : Int)) * f = (i : Int) * f := by
          linear_combination hkt
        have h2 : (j : Int) + (p : Int) = (i : Int) :=
          mul_right_cancel₀ (ne_of_gt hf) h1
        omega
      refine ⟨(tr.1, tr.2 ++ numProj df.cols prev), ?_, rfl, ?_, ?_⟩
      · simp [Frame.mergeStep, hms]
      · intro _
        exact ⟨prev, hprev, rfl⟩
      · intro hlt
        omega
    · have hms : (shifted.index.zip shifted.rows).filter
          (fun q => decide (q.1 = tr.1)) = [] := by
        refine filter_key_nil _ _ _ ?_
        intro k hk hkt
        obtain ⟨j, hj⟩ := List.getElem?_of_mem hk
        obtain ⟨hjn, hkv⟩ := hKval j k hj
        rw [htrv] at hkt
        rw [hkv] at hkt
        have h1 : ((j : Int) + (p : Int)) * f = (i : Int) * f := by
          linear_combination hkt
        have h2 : (j : Int) + (p : Int) = (i : Int) :=
          mul_right_cancel₀ (ne_of_gt hf) h1
        omega
      have hpad : shifted.cols.map (fun _ => (none : Option Rat)) =
          List.replicate (df.cols.filter (·.numeric)).length none := by
        rw [List.map_const']
        congr 1
        simp [hshifted, Frame.renameLag, Frame.shift, Frame.selectNumeric, lagCols]
      refine ⟨(tr.1, tr.2 ++
          List.replicate (df.cols.filter (·.numeric)).length none), ?_, rfl, ?_, ?_⟩
      · simp [Frame.mergeStep, hms, hpad]
      · intro hple
        omega
      · intro _
        rfl
  have hsing : ∀ x ∈ df.index.zip df.rows, ∃ w, Frame.mergeStep shifted x = [w] := by
    intro x hx
    obtain ⟨i, hi⟩ := List.getElem?_of_mem hx
    have hilt : i < n := by
      obtain ⟨h1, -⟩ := List.getElem?_eq_some.mp hi
      rw [List.length_zip, hidxlen] at h1
      omega
    obtain ⟨w, hw, _⟩ := hstep i hilt x hi
    exact ⟨w, hw⟩
  obtain ⟨hflen, hfget⟩ := flatMap_singleton_getElem (df.index.zip df.rows)
    (Frame.mergeStep shifted) hsing
  have hziplen : (df.index.zip df.rows).length = n := by
    rw [List.length_zip, hidxlen]
    omega
  have hcols : (lag_dataframe df p f).cols = df.cols ++ lagCols df.cols := rfl
  have hrowsdef : (lag_dataframe df p f).rows =
      ((df.index.zip df.rows).flatMap (Frame.mergeStep shifted)).map (·.2) := rfl
  have hidxdef : (lag_dataframe df p f).index =
      ((df.index.zip df.rows).flatMap (Frame.mergeStep shifted)).map (·.1) := rfl
  refine ⟨hcols, ?_, ?_, ?_⟩
  · refine List.ext_getElem? (fun i => ?_)
    rw [hidxdef, List.getElem?_map, hfget i]
    by_cases hi : i < n
    · obtain ⟨t, ht⟩ : ∃ t, df.index[i]? = some t := by
        rw [List.getElem?_eq_getElem (show i < df.index.length by omega)]
        exact ⟨_, rfl⟩
      obtain ⟨r, hr⟩ : ∃ r, df.rows[i]? = some r := by
        rw [List.getElem?_eq_getElem (show i < df.rows.length by omega)]
        exact ⟨_, rfl⟩
      have hzip : (df.index.zip df.rows)[i]? = some (t, r) :=
        List.getElem?_zip_eq_some.mpr ⟨ht, hr⟩
      obtain ⟨w, hw, hw1, -⟩ := hstep i hi (t, r) hzip
      rw [hzip, ht]
      simp [hw, hw1]
    · have h1 : (df.index.zip df.rows)[i]? = none :=
        List.getElem?_eq_none (by omega)
      have h2 : df.index[i]? = none := List.getElem?_eq_none (by omega)
      rw [h1, h2]
      rfl
  · rw [hrowsdef, List.length_map, hflen, hziplen]
  · intro j r hjr
    have hjn : j < n := by
      obtain ⟨h, -⟩ := List.getElem?_eq_some.mp hjr
      omega
    have hzip : (df.index.zip df.rows)[j]? = some (t0 + (j : Int) * f, r) :=
      List.getElem?_zip_eq_some.mpr ⟨hdfget j hjn, hjr⟩
    obtain ⟨w, hw, hw1, hwa, hwb⟩ := hstep j hjn (t0 + (j : Int) * f, r) hzip
    have hout : (lag_dataframe df p f).rows[j]? = some w.2 := by
      rw [hrowsdef, List.getElem?_map, hfget j, hzip]
      simp [hw]
    constructor
    · intro hple
      obtain ⟨prev, hprev, hwval⟩ := hwa hple
      exact ⟨prev, hprev, by rw [hout, hwval]⟩
    · intro hlt
      rw [hout, hwb hlt]

/-- Unfolding of the fit/predict loop with a generalized accumulator. -/
theorem loop_foldl_aux (model : Model) (met_train : List DRow)
    (flux_train : FluxTable) (met_test : List DRow) (fvs : List String)
    (a : List (String × List Rat)) (b : List String) :
    fvs.foldl (loop_step model met_train flux_train met_test) (a, b) =
    (a ++ (fvs.filter (fun v => 0 < (qcRows met_train flux_train v).length)).map
        (fun v => (v, model ((qcRows met_train flux_train v).map Prod.fst)
                           ((qcRows met_train flux_train v).map Prod.snd) met_test)),
     b ++ fvs.filter (fun v => 0 < (qcRows met_train flux_train v).length)) := by
  induction fvs generalizing a b with
  | nil => simp
  | cons v vs ih =>
    rw [List.foldl_cons, List.filter_cons]
    by_cases h : 0 < (qcRows met_train flux_train v).length
    · have hstep : loop_step model met_train flux_train met_test (a, b) v =
          (a ++ [(v, model ((qcRows met_train flux_train v).map Prod.fst)
                          ((qcRows met_train flux_train v).map Prod.snd) met_test)],
           b ++ [v]) := by
        simp [loop_step, h]
      rw [hstep, ih]
      simp [h]
    · have hstep : loop_step model met_train flux_train met_test (a, b) v = (a, b) := by
        simp [loop_step, h]
      rw [hstep, ih]
      simp [h]

/-- `fit_predict_loop` keeps exactly the flux variables with a nonzero
QC-complete joined training table, in order, mapping each to the model
prediction fitted on its QC-filtered rows. -/
theorem fit_predict_loop_eq (model : Model) (flux_vars : List String)
    (met_train : List DRow) (flux_train : FluxTable) (met_test : List DRow) :
    fit_predict_loop model flux_vars met_train flux_train met_test =
    ((flux_vars.filter (fun v => 0 < (qcRows met_train flux_train v).length)).map
        (fun v => (v, model ((qcRows met_train flux_train v).map Prod.fst)
                           ((qcRows met_train flux_train v).map Prod.snd) met_test)),
     flux_vars.filter (fun v => 0 < (qcRows met_train flux_train v).length)) := by
  unfold fit_predict_loop
  simpa using loop_foldl_aux model met_train flux_train met_test flux_vars [] []

/-- Every row of a training table built by `build_train` comes from some
non-target site's dataset. -/
theorem build_train_mem (data : List (String × List DRow)) (site : String) :
    ∀ r ∈ build_train data site,
      ∃ s ds, (s, ds) ∈ data ∧ s ≠ site ∧ r ∈ ds := by
  intro r hr
  simp only [build_train, xray_list_to_df, train_sets, List.mem_flatMap,
    List.mem_map, List.mem_filter] at hr
  obtain ⟨ds, ⟨⟨s, ds2⟩, ⟨hmem, hne⟩, hds⟩, hrds, -⟩ := hr
  dsimp only at hds
  subst hds
  exact ⟨s, ds2, hmem, by simpa using hne, hrds⟩

/-- After erasing the element found by `findIdx p`, no element satisfying
`p` remains, provided at most one did. -/
theorem eraseIdx_findIdx_of_countP_le_one {α : Type} (p : α → Bool) (l : List α)
    (h : l.countP p ≤ 1) :
    ∀ x ∈ l.eraseIdx (l.findIdx p), p x = false := by
  induction l with
  | nil => simp
  | cons a l ih =>
    by_cases hpa : p a
    · have hcount : l.countP p = 0 := by
        rw [List.countP_cons] at h
        simp only [hpa, if_pos] at h
        omega
      intro x hx
      rw [List.findIdx_cons, hpa] at hx
      simp only [cond_true, List.eraseIdx_cons_zero] at hx
      simpa using List.countP_eq_zero.mp hcount x hx
    · intro x hx
      rw [List.findIdx_cons] at hx
      simp only [hpa, cond_false, List.eraseIdx_cons_succ, List.mem_cons] at hx
      rcases hx with hx | hx
      · rw [hx]
        simpa using hpa
      · refine ih ?_ x hx
        rw [List.countP_cons] at h
        simp only [hpa, if_neg] at h
        omega

/-! ## Claim theorems -/

/-- C4: calling `LagTransform.transform` on a transformer on which `fit`
has never been called fails with the unfitted (`NotFittedError`)
precondition error before any lagging runs; after any `fit` call the
`check_is_fitted` precondition passes. -/
theorem C4_transform_requires_fit (p : Nat) (f : Int) (X : GroupedFrame)
    (Xf : Frame) :
    (LagTransform.init p f).transform X = .error .notFitted ∧
    check_is_fitted ((LagTransform.init p f).fit Xf) = true :=
  ⟨rfl, rfl⟩

/-- C5: `LagTransform.fit(X)` records the numeric-column count of `X` as
the input-feature count, exactly twice it as the output-feature count, and
the per-column mean of the numeric columns; it changes nothing else (the
lag parameters are untouched) and returns the fitted transformer itself. -/
theorem C5_fit_records_features_and_mean (t : LagTransform) (X : Frame) :
    (t.fit X).n_input_features_ = some ((X.cols.filter (·.numeric)).length) ∧
    (t.fit X).n_output_features_ = some (2 * (X.cols.filter (·.numeric)).length) ∧
    (t.fit X).X_mean = some X.mean ∧
    (t.fit X)._periods = t._periods ∧
    (t.fit X)._freq = t._freq :=
  ⟨rfl, rfl, rfl, rfl, rfl⟩

/-- C6: on a table with a (unique) `site` column, `PandasCleaner.fit`
stores a column list from which `site` is absent, and stores as the popped
site series exactly the original `site` column's values in row order. -/
theorem C6_cleaner_fit_extracts_site (c : PandasCleaner) (X : Frame)
    (y : Option Frame)
    (hone : X.cols.countP (fun col => decide (col.name = "site")) ≤ 1)
    (hsite : X.hasCol "site" = true) :
    (∃ cs, (c.fit X y).self.X_columns_ = some cs ∧
      ∀ col ∈ cs, col.name ≠ "site") ∧
    (c.fit X y).self.X_sites_ =
      some (some (X.colVals
        (X.cols.findIdx (fun col => decide (col.name = "site"))))) := by
  have hcols : (c.fit X y).self.X_columns_ = some (X.popCol "site").2.cols ∧
      (c.fit X y).self.X_sites_ = some (some (X.popCol "site").1) := by
    cases y <;> simp [PandasCleaner.fit, hsite]
  refine ⟨⟨(X.popCol "site").2.cols, hcols.1, ?_⟩, hcols.2⟩
  intro col hcol
  simp only [Frame.popCol] at hcol
  have := eraseIdx_findIdx_of_countP_le_one
    (fun col => decide (col.name = "site")) X.cols hone col hcol
  exact of_decide_eq_false this

/-- C6 witness: a concrete table with a `site` column. -/
theorem C6_cleaner_fit_extracts_site_witness :
    (∃ cs, ((PandasCleaner.init true).fit
        ⟨[⟨"x", true⟩, ⟨"site", false⟩], [0], [[some 1, some 7]]⟩
        none).self.X_columns_ = some cs ∧
      ∀ col ∈ cs, col.name ≠ "site") ∧
    ((PandasCleaner.init true).fit
        ⟨[⟨"x", true⟩, ⟨"site", false⟩], [0], [[some 1, some 7]]⟩
        none).self.X_sites_ =
      some (some ((⟨[⟨"x", true⟩, ⟨"site", false⟩], [0], [[some 1, some 7]]⟩ : Frame).colVals
        ((⟨[⟨"x", true⟩, ⟨"site", false⟩], [0], [[some 1, some 7]]⟩ : Frame).cols.findIdx
          (fun col => decide (col.name = "site"))))) :=
  C6_cleaner_fit_extracts_site (PandasCleaner.init true)
    ⟨[⟨"x", true⟩, ⟨"site", false⟩], [0], [[some 1, some 7]]⟩ none
    (by decide) (by decide)

/-- C10: `PandasCleaner.fit` mutates its arguments: with a `site` column
present it removes that column from the caller's `X` in place (the column
count strictly drops), does the same to `y` when supplied with a `site`
column, and returns `None` rather than the fitted transformer. -/
theorem C10_cleaner_fit_mutates_and_returns_none (c : PandasCleaner)
    (X : Frame) (y : Option Frame) (hX : X.hasCol "site" = true) :
    (c.fit X y).X = (X.popCol "site").2 ∧
    (c.fit X y).X.cols.length < X.cols.length ∧
    (c.fit X y).ret = none ∧
    (∀ ydf, y = some ydf → ydf.hasCol "site" = true →
      (c.fit X y).y = some (ydf.popCol "site").2) := by
  have hlt : X.cols.findIdx (fun col => decide (col.name = "site")) <
      X.cols.length :=
    List.findIdx_lt_length_of_exists (List.any_eq_true.mp hX)
  refine ⟨?_, ?_, ?_, ?_⟩
  · cases y <;> simp [PandasCleaner.fit, hX]
  · have hX1 : (c.fit X y).X = (X.popCol "site").2 := by
      cases y <;> simp [PandasCleaner.fit, hX]
    rw [hX1]
    have := List.length_eraseIdx_add_one hlt
    simp only [Frame.popCol]
    omega
  · cases y <;> simp [PandasCleaner.fit, hX]
  · intro ydf hy hysite
    subst hy
    simp [PandasCleaner.fit, hX, hysite]

/-- C10 witness: concrete `X` and `y` both carrying a `site` column. -/
theorem C10_cleaner_fit_mutates_and_returns_none_witness :
    ((PandasCleaner.init true).fit
        ⟨[⟨"site", false⟩, ⟨"x", true⟩], [0], [[some 3, some 1]]⟩
        (some ⟨[⟨"site", false⟩], [0], [[some 3]]⟩)).X =
      ((⟨[⟨"site", false⟩, ⟨"x", true⟩], [0], [[some 3, some 1]]⟩ : Frame).popCol "site").2 ∧
    ((PandasCleaner.init true).fit
        ⟨[⟨"site", false⟩, ⟨"x", true⟩], [0], [[some 3, some 1]]⟩
        (some ⟨[⟨"site", false⟩], [0], [[some 3]]⟩)).X.cols.length <
      ([⟨"site", false⟩, ⟨"x", true⟩] : List Col).length ∧
    ((PandasCleaner.init true).fit
        ⟨[⟨"site", false⟩, ⟨"x", true⟩], [0], [[some 3, some 1]]⟩
        (some ⟨[⟨"site", false⟩], [0], [[some 3]]⟩)).ret = none ∧
    (∀ ydf, (some (⟨[⟨"site", false⟩], [0], [[some 3]]⟩ : Frame)) = some ydf →
      ydf.hasCol "site" = true →
      ((PandasCleaner.init true).fit
          ⟨[⟨"site", false⟩, ⟨"x", true⟩], [0], [[some 3, some 1]]⟩
          (some ⟨[⟨"site", false⟩], [0], [[some 3]]⟩)).y =
        some (ydf.popCol "site").2) :=
  C10_cleaner_fit_mutates_and_returns_none (PandasCleaner.init true)
    ⟨[⟨"site", false⟩, ⟨"x", true⟩], [0], [[some 3, some 1]]⟩
    (some ⟨[⟨"site", false⟩], [0], [[some 3]]⟩) (by decide)

/-- C9: for any input carrying a `site` grouping key (as an index level or
a column) and at least one fully non-null row, `transform` after `fit`
never raises: it returns a lagged table. -/
theorem C9_fitted_transform_never_raises (t : LagTransform) (Xf : Frame)
    (X : GroupedFrame) (loc : SiteLoc) (hloc : X.siteLoc = some loc)
    (hrow : ∃ g ∈ X.groups, ∃ r ∈ g.2.rows, completeRow r = true) :
    ∃ Y, (t.fit Xf).transform X = .ok Y := by
  obtain ⟨sl, groups⟩ := X
  dsimp only at hloc
  subst hloc
  exact ⟨_, rfl⟩

/-- C9 witness: a concrete grouped input with the site key as an index
level and one complete row. -/
theorem C9_fitted_transform_never_raises_witness :
    ∃ Y, ((LagTransform.init 1 1).fit ⟨[⟨"x", true⟩], [0], [[some 1]]⟩).transform
      ⟨some .inIndex, [("A", ⟨[⟨"x", true⟩], [0], [[some 1]]⟩)]⟩ = .ok Y :=
  C9_fitted_transform_never_raises (LagTransform.init 1 1)
    ⟨[⟨"x", true⟩], [0], [[some 1]]⟩
    ⟨some .inIndex, [("A", ⟨[⟨"x", true⟩], [0], [[some 1]]⟩)]⟩
    .inIndex rfl ⟨("A", ⟨[⟨"x", true⟩], [0], [[some 1]]⟩), by simp,
      [some 1], by simp, by decide⟩

/-- C2: a flux variable `V` with zero QC-complete joined training rows is
skipped — never fitted, never predicted, absent from the output mapping —
while the run continues and a variable `W` with complete rows gets its
fitted prediction recorded. -/
theorem C2_skips_variable_without_complete_rows (model : Model)
    (flux_vars : List String) (met_train : List DRow) (flux_train : FluxTable)
    (met_test : List DRow) (V W : String) (hV : V ∈ flux_vars)
    (hW : W ∈ flux_vars)
    (hVzero : (qcRows met_train flux_train V).length = 0)
    (hWpos : 0 < (qcRows met_train flux_train W).length) :
    (∀ e ∈ (fit_predict_loop model flux_vars met_train flux_train met_test).1,
      e.1 ≠ V) ∧
    V ∉ (fit_predict_loop model flux_vars met_train flux_train met_test).2 ∧
    (W, model ((qcRows met_train flux_train W).map Prod.fst)
              ((qcRows met_train flux_train W).map Prod.snd) met_test) ∈
      (fit_predict_loop model flux_vars met_train flux_train met_test).1 ∧
    W ∈ (fit_predict_loop model flux_vars met_train flux_train met_test).2 := by
  rw [fit_predict_loop_eq]
  refine ⟨?_, ?_, ?_, ?_⟩
  · intro e he
    simp only [List.mem_map] at he
    obtain ⟨v, hv, rfl⟩ := he
    intro hEq
    dsimp only at hEq
    subst hEq
    have := (List.mem_filter.mp hv).2
    simp [hVzero] at this
  · intro hVmem
    have := (List.mem_filter.mp hVmem).2
    simp [hVzero] at this
  · exact List.mem_map.mpr ⟨W, List.mem_filter.mpr ⟨hW, by simpa using hWpos⟩, rfl⟩
  · exact List.mem_filter.mpr ⟨hW, by simpa using hWpos⟩

/-- C2 witness: `Qh` has no complete joined rows (null flux value), `Qle`
has one; only `Qle` is fitted and appears in the output mapping. -/
theorem C2_skips_variable_without_complete_rows_witness :
    (∀ e ∈ (fit_predict_loop (fun _ _ _ => []) ["Qh", "Qle"] [[some 1]]
        [("Qh", [none]), ("Qle", [some 2])] []).1, e.1 ≠ "Qh") ∧
    "Qh" ∉ (fit_predict_loop (fun _ _ _ => []) ["Qh", "Qle"] [[some 1]]
        [("Qh", [none]), ("Qle", [some 2])] []).2 ∧
    ("Qle", (fun (_ : List DRow) (_ : List (Option Rat)) (_ : List DRow) =>
        ([] : List Rat))
          ((qcRows [[some 1]] [("Qh", [none]), ("Qle", [some 2])] "Qle").map Prod.fst)
          ((qcRows [[some 1]] [("Qh", [none]), ("Qle", [some 2])] "Qle").map Prod.snd)
          []) ∈
      (fit_predict_loop (fun _ _ _ => []) ["Qh", "Qle"] [[some 1]]
        [("Qh", [none]), ("Qle", [some 2])] []).1 ∧
    "Qle" ∈ (fit_predict_loop (fun _ _ _ => []) ["Qh", "Qle"] [[some 1]]
        [("Qh", [none]), ("Qle", [some 2])] []).2 :=
  C2_skips_variable_without_complete_rows (fun _ _ _ => []) ["Qh", "Qle"]
    [[some 1]] [("Qh", [none]), ("Qle", [some 2])] [] "Qh" "Qle"
    (by decide) (by decide) (by decide) (by decide)

/-- C8: if every flux variable has zero QC-complete rows, the run is fatal
(`sys.exit()`, modelled as the `sysExit` error outcome); if at least one
variable is fitted, the simulation output is assembled from the fitted
predictions and returned. -/
theorem C8_zero_fitted_is_fatal (model : Model) (flux_vars : List String)
    (met_train : List DRow) (flux_train : FluxTable) (met_test : List DRow)
    (old_ds : OldDS) :
    ((∀ v ∈ flux_vars, (qcRows met_train flux_train v).length = 0) →
      PLUMBER_fit_predict model flux_vars met_train flux_train met_test old_ds =
        .error .sysExit) ∧
    ((∃ v ∈ flux_vars, 0 < (qcRows met_train flux_train v).length) →
      ∃ sd, PLUMBER_fit_predict model flux_vars met_train flux_train met_test
          old_ds = .ok sd ∧
        sd.data =
          (fit_predict_loop model flux_vars met_train flux_train met_test).1) := by
  constructor
  · intro h0
    unfold PLUMBER_fit_predict
    rw [fit_predict_loop_eq]
    have hfil : flux_vars.filter
        (fun v => 0 < (qcRows met_train flux_train v).length) = [] := by
      rw [List.filter_eq_nil_iff]
      intro v hv
      simp [h0 v hv]
    simp [hfil]
  · rintro ⟨v, hv, hvpos⟩
    have hne : (fit_predict_loop model flux_vars met_train flux_train met_test).1 ≠
        [] := by
      rw [fit_predict_loop_eq]
      intro hemp
      dsimp only at hemp
      rw [List.map_eq_nil_iff] at hemp
      have : v ∈ flux_vars.filter
          (fun v => 0 < (qcRows met_train flux_train v).length) :=
        List.mem_filter.mpr ⟨hv, by simpa using hvpos⟩
      rw [hemp] at this
      simp at this
    have hlen : ¬ (fit_predict_loop model flux_vars met_train flux_train
        met_test).1.length < 1 := by
      have := List.length_pos.mpr hne
      omega
    unfold PLUMBER_fit_predict
    rw [if_neg hlen]
    exact ⟨_, rfl, rfl⟩

/-- C8 witness: with the sole variable incomplete the run exits; with it
complete the run returns the assembled output. -/
theorem C8_zero_fitted_is_fatal_witness :
    (PLUMBER_fit_predict (fun _ _ _ => []) ["Qh"] [[some 1]] [("Qh", [none])]
        [] ⟨[]⟩ = .error .sysExit) ∧
    (∃ sd, PLUMBER_fit_predict (fun _ _ _ => []) ["Qh"] [[some 1]]
        [("Qh", [some 2])] [] ⟨[]⟩ = .ok sd ∧
      sd.data = (fit_predict_loop (fun _ _ _ => []) ["Qh"] [[some 1]]
        [("Qh", [some 2])] []).1) :=
  ⟨(C8_zero_fitted_is_fatal (fun _ _ _ => []) ["Qh"] [[some 1]]
      [("Qh", [none])] [] ⟨[]⟩).1 (by decide),
   (C8_zero_fitted_is_fatal (fun _ _ _ => []) ["Qh"] [[some 1]]
      [("Qh", [some 2])] [] ⟨[]⟩).2 ⟨"Qh", by decide, by decide⟩⟩

/-- C7: the met and flux training tables are built only from non-target
sites, so (with sites' rows pairwise distinct) no row of the target site's
dataset is ever part of the data the model is fitted on. -/
theorem C7_target_site_never_trained_on
    (met_data flux_data : List (String × List DRow)) (site : String)
    (hmet : ∀ p ∈ met_data, p.1 ≠ site →
      ∀ r ∈ p.2, r ∉ target_rows met_data site)
    (hflux : ∀ p ∈ flux_data, p.1 ≠ site →
      ∀ r ∈ p.2, r ∉ target_rows flux_data site) :
    (∀ r ∈ target_rows met_data site, r ∉ build_train met_data site) ∧
    (∀ r ∈ target_rows flux_data site, r ∉ build_train flux_data site) := by
  constructor
  · intro r hrt hrb
    obtain ⟨s, ds, hmem, hne, hrds⟩ := build_train_mem met_data site r hrb
    exact hmet (s, ds) hmem hne r hrds hrt
  · intro r hrt hrb
    obtain ⟨s, ds, hmem, hne, hrds⟩ := build_train_mem flux_data site r hrb
    exact hflux (s, ds) hmem hne r hrds hrt

/-- C7 witness: two sites with distinct rows; site `A` is the target. -/
theorem C7_target_site_never_trained_on_witness :
    (∀ r ∈ target_rows [("A", [[some 1]]), ("B", [[some 2]])] "A",
      r ∉ build_train [("A", [[some 1]]), ("B", [[some 2]])] "A") ∧
    (∀ r ∈ target_rows [("A", [[some 3]]), ("B", [[some 4]])] "A",
      r ∉ build_train [("A", [[some 3]]), ("B", [[some 4]])] "A") :=
  C7_target_site_never_trained_on [("A", [[some 1]]), ("B", [[some 2]])]
    [("A", [[some 3]]), ("B", [[some 4]])] "A" (by decide) (by decide)

/-- C3: `PLUMBER_fit_predict_eval` is memoized on the deterministic path
for (model name, site): with a persisted dataset at that path it evaluates
the loaded data and never invokes the fit/predict driver (the outcome is
the same for every driver); otherwise it runs the driver and persists the
result at that path before evaluating. -/
theorem C3_eval_is_cached {E F FD : Type} (driver : Except ExitSignal SimData)
    (evalFn : SimData → FD → String → E) (plotFn : SimData → FD → String → F)
    (name site : String) (flux_data : FD) (fs : FileStore) :
    (∀ d, fs.lookup (get_sim_nc_path name site) = some d →
      PLUMBER_fit_predict_eval driver evalFn plotFn name site flux_data fs =
        .ok { eval_results := evalFn d flux_data name
              files := plotFn d flux_data name
              fs := fs
              driver_called := false }) ∧
    (fs.lookup (get_sim_nc_path name site) = none →
      ∀ sd, driver = .ok sd →
        PLUMBER_fit_predict_eval driver evalFn plotFn name site flux_data fs =
          .ok { eval_results := evalFn sd flux_data name
                files := plotFn sd flux_data name
                fs := fs.save (get_sim_nc_path name site) sd
                driver_called := true } ∧
        (fs.save (get_sim_nc_path name site) sd).lookup
          (get_sim_nc_path name site) = some sd) := by
  constructor
  · intro d hd
    simp only [PLUMBER_fit_predict_eval, hd]
  · intro hnone sd hsd
    constructor
    · simp only [PLUMBER_fit_predict_eval, hnone, hsd]
    · simp [FileStore.lookup, FileStore.save]

/-- C3 witness: a cached call returns the persisted data without the
driver; an uncached call persists the driver's output at the path. -/
theorem C3_eval_is_cached_witness :
    (@PLUMBER_fit_predict_eval Nat Nat Nat (.error .sysExit)
        (fun _ _ _ => (0 : Nat)) (fun _ _ _ => (0 : Nat)) "m" "s" 0
        [(get_sim_nc_path "m" "s", ⟨[("Qh", [1])], []⟩)] =
      .ok { eval_results := (0 : Nat)
            files := (0 : Nat)
            fs := [(get_sim_nc_path "m" "s", ⟨[("Qh", [1])], []⟩)]
            driver_called := false }) ∧
    (@PLUMBER_fit_predict_eval Nat Nat Nat (.ok ⟨[("Qh", [2])], []⟩)
        (fun _ _ _ => (0 : Nat)) (fun _ _ _ => (0 : Nat)) "m" "s" 0 [] =
      .ok { eval_results := (0 : Nat)
            files := (0 : Nat)
            fs := FileStore.save [] (get_sim_nc_path "m" "s") ⟨[("Qh", [2])], []⟩
            driver_called := true } ∧
      (FileStore.save [] (get_sim_nc_path "m" "s") ⟨[("Qh", [2])], []⟩).lookup
        (get_sim_nc_path "m" "s") = some ⟨[("Qh", [2])], []⟩) :=
  ⟨(@C3_eval_is_cached Nat Nat Nat (.error .sysExit) (fun _ _ _ => (0 : Nat))
      (fun _ _ _ => (0 : Nat)) "m" "s" 0
      [(get_sim_nc_path "m" "s", ⟨[("Qh", [1])], []⟩)]).1
      ⟨[("Qh", [1])], []⟩ (by simp [FileStore.lookup]),
   (@C3_eval_is_cached Nat Nat Nat (.ok ⟨[("Qh", [2])], []⟩)
      (fun _ _ _ => (0 : Nat)) (fun _ _ _ => (0 : Nat)) "m" "s" 0 []).2
      rfl ⟨[("Qh", [2])], []⟩ rfl⟩

/-- C1: after `fit`, on a site-keyed table whose groups are regularly
spaced time series (step `_freq`, the spacing the code assumes),
`transform` succeeds and in every group: the added columns are exactly the
numeric columns renamed with the `_lag` suffix, the index and row count
are unchanged (the left join adds no rows), each row at position
`j ≥ _periods` carries in the lag columns the numeric values from
`_periods` rows earlier in the same group, and each of the first
`_periods` rows carries only nulls there (no wraparound). -/
theorem C1_transform_lags_per_group (t : LagTransform) (X : GroupedFrame)
    (loc : SiteLoc) (hfit : check_is_fitted t = true)
    (hloc : X.siteLoc = some loc) (hf : 0 < t._freq)
    (hidx : ∀ g ∈ X.groups, ∃ t0 : Int, g.2.index =
      (List.range g.2.rows.length).map (fun i : Nat => t0 + (i : Int) * t._freq)) :
    ∃ Y, t.transform X = .ok Y ∧ Y.siteLoc = X.siteLoc ∧
      Y.groups.length = X.groups.length ∧
      ∀ (i : Nat) (g : String × Frame), X.groups[i]? = some g →
        ∃ g2 : String × Frame, Y.groups[i]? = some g2 ∧
        g2.1 = g.1 ∧
        g2.2.cols = g.2.cols ++ lagCols g.2.cols ∧
        g2.2.index = g.2.index ∧
        g2.2.rows.length = g.2.rows.length ∧
        ∀ (j : Nat) (r : List (Option Rat)), g.2.rows[j]? = some r →
          (t._periods ≤ j → ∃ prev, g.2.rows[j - t._periods]? = some prev ∧
            g2.2.rows[j]? = some (r ++ numProj g.2.cols prev)) ∧
          (j < t._periods → g2.2.rows[j]? =
            some (r ++ List.replicate (g.2.cols.filter (·.numeric)).length none)) := by
  obtain ⟨sl, groups⟩ := X
  dsimp only at hloc hidx
  subst hloc
  have htr : t.transform ⟨some loc, groups⟩ = .ok ⟨some loc,
      groups.map (fun g => (g.1, lag_dataframe g.2 t._periods t._freq))⟩ := by
    unfold LagTransform.transform
    rw [hfit]
    rfl
  refine ⟨_, htr, rfl, by simp, ?_⟩
  intro i g hg
  have hY : (groups.map (fun g => (g.1, lag_dataframe g.2 t._periods t._freq)))[i]? =
      some (g.1, lag_dataframe g.2 t._periods t._freq) := by
    rw [List.getElem?_map, hg]
    rfl
  obtain ⟨t0, hidxg⟩ := hidx g (List.getElem?_mem hg)
  obtain ⟨hcols, hindex, hlen, hrows⟩ :=
    lag_dataframe_spec g.2 t._periods t._freq t0 hf hidxg
  exact ⟨(g.1, lag_dataframe g.2 t._periods t._freq), hY, rfl, hcols, hindex,
    hlen, hrows⟩

/-- C1 witness: a fitted transformer (periods 1, freq 1) applied to one
site group of two regularly spaced rows with one numeric column and a
non-numeric site column. -/
theorem C1_transform_lags_per_group_witness :
    ∃ Y, ((LagTransform.init 1 1).fit ⟨[⟨"x", true⟩], [0], [[some 5]]⟩).transform
        ⟨some .inCols, [("A", ⟨[⟨"x", true⟩, ⟨"site", false⟩], [0, 1],
          [[some 1, some 10], [some 2, some 10]]⟩)]⟩ = .ok Y ∧
      Y.siteLoc = (⟨some .inCols, [("A", ⟨[⟨"x", true⟩, ⟨"site", false⟩], [0, 1],
          [[some 1, some 10], [some 2, some 10]]⟩)]⟩ : GroupedFrame).siteLoc ∧
      Y.groups.length = (⟨some .inCols, [("A", ⟨[⟨"x", true⟩, ⟨"site", false⟩],
          [0, 1], [[some 1, some 10], [some 2, some 10]]⟩)]⟩ :
            GroupedFrame).groups.length ∧
      ∀ (i : Nat) (g : String × Frame),
        (⟨some .inCols, [("A", ⟨[⟨"x", true⟩, ⟨"site", false⟩], [0, 1],
          [[some 1, some 10], [some 2, some 10]]⟩)]⟩ :
            GroupedFrame).groups[i]? = some g →
        ∃ g2 : String × Frame, Y.groups[i]? = some g2 ∧
          g2.1 = g.1 ∧
          g2.2.cols = g.2.cols ++ lagCols g.2.cols ∧
          g2.2.index = g.2.index ∧
          g2.2.rows.length = g.2.rows.length ∧
          ∀ (j : Nat) (r : List (Option Rat)), g.2.rows[j]? = some r →
            (1 ≤ j → ∃ prev, g.2.rows[j - 1]? = some prev ∧
              g2.2.rows[j]? = some (r ++ numProj g.2.cols prev)) ∧
            (j < 1 → g2.2.rows[j]? =
              some (r ++ List.replicate (g.2.cols.filter (·.numeric)).length none)) :=
  C1_transform_lags_per_group
    ((LagTransform.init 1 1).fit ⟨[⟨"x", true⟩], [0], [[some 5]]⟩)
    ⟨some .inCols, [("A", ⟨[⟨"x", true⟩, ⟨"site", false⟩], [0, 1],
      [[some 1, some 10], [some 2, some 10]]⟩)]⟩
    .inCols rfl rfl (by decide)
    (by
      intro g hg
      simp only [List.mem_singleton] at hg
      subst hg
      exact ⟨0, by decide⟩)

end EmpiricalLSM
